import Mathlib

/-!
Shallow embedding of the callback-handling core of the `django-docusign`
demo application (`django_docusign_demo/models.py` and
`django_docusign_demo/views.py`), together with theorems settling the
frozen claims about its specification.

Modelling conventions:
  * Timestamps are natural numbers; "now" is passed explicitly.
  * A Django `FieldFile` is a name plus byte content; it is falsy exactly
    when its name is the empty string, matching `FieldFile.__bool__`.
  * Fallible steps return `Except` / record an `error` field; exceptions
    raised by the storage steps inside the `try` block are injected
    through explicit fault flags so that every exit path is a case of the
    definition.
  * The external backend call `get_docusign_documents(...).next()` is
    modelled by an `Except Unit (List (List Nat))` argument: `error` is an
    upstream fetch failure, `ok l` yields the document byte sequences.
-/

namespace DjangoDocusign

/-- Status vocabulary, from the `choices` of the `status` fields of
`Signature` and `Signer` in `models.py`. -/
def VALID_STATUSES : List String :=
  ["draft", "sent", "delivered", "completed", "declined"]

/-- Membership in the closed status enumeration. -/
def validStatus (status : String) : Bool :=
  VALID_STATUSES.contains status

/-- Characters kept by the first substitution of Django's `slugify`
(pattern `[^\w\s-]` removed: word characters, whitespace and hyphens
survive). -/
def slugKeep (c : Char) : Bool :=
  c.isAlphanum || c == '_' || c == '-' || c.isWhitespace

/-- Strip leading and trailing whitespace, as Python's `str.strip`. -/
def slugStrip (cs : List Char) : List Char :=
  ((cs.dropWhile Char.isWhitespace).reverse.dropWhile Char.isWhitespace).reverse

/-- One step of the final substitution of `slugify` (runs matching `[-\s]+`
become a single hyphen); the accumulator holds the output reversed. -/
def slugCollapse (acc : List Char) (c : Char) : List Char :=
  if c.isWhitespace || c == '-' then
    match acc with
    | '-' :: _ => acc
    | _ => '-' :: acc
  else c :: acc

/-- Django's `slugify` restricted to ASCII input: drop characters outside
`[\w\s-]`, strip, lowercase, then collapse runs of whitespace/hyphens to a
single hyphen. -/
def slugify (value : String) : String :=
  let kept := value.data.filter slugKeep
  let lowered := (slugStrip kept).map Char.toLower
  ⟨(lowered.foldl slugCollapse []).reverse⟩

/-- A Django `FieldFile`: stored name and content. The field is falsy
exactly when `name` is empty (no stored file). -/
structure FieldFile where
  name : String
  content : List Nat
deriving Repr, DecidableEq

/-- The `Signature` (envelope) model of `models.py`: `document` file
field, `document_title`, `status` and `status_datetime`.
`status_datetime` has `auto_now_add`: it is set at creation only and a
plain `save()` never changes it. -/
structure Signature where
  document : FieldFile
  document_title : String
  status : String
  status_datetime : Nat
deriving Repr, DecidableEq

/-- The `Signer` model of `models.py`. -/
structure Signer where
  id : Nat
  full_name : String
  email : String
  signing_order : Nat
  status : String
  status_datetime : Nat
  status_details : String
deriving Repr, DecidableEq

/-- The persisted signer table. -/
structure DB where
  signers : List Signer
deriving Repr, DecidableEq

/-- Errors surfaced by the callback handler. The first three form the
spec's taxonomy; the remaining ones model raw Python exceptions escaping
`update_signature` (`StopIteration` from `.next()` on an exhausted
generator, and the injected faults of the storage steps). -/
inductive PyError
  | NotFoundError
  | InvalidStatusError
  | UpstreamFetchError
  | StopIteration
  | FilenameError
  | DeleteError
  | StorageError
deriving Repr, DecidableEq

/-- Fault injection for the three steps inside the `try` block of
`update_signature`: filename computation, `document.delete(save=False)`
and `document.save(...)`. -/
structure Faults where
  filename_fails : Bool
  delete_fails : Bool
  store_fails : Bool
deriving Repr, DecidableEq

/-- All storage steps succeed. -/
def noFaults : Faults := ⟨false, false, false⟩

/-- Result of `update_signature`: the persisted signature, whether the
backend fetch was attempted, whether a document stream was obtained,
whether that stream was closed, and the escaping exception if any. -/
structure Outcome where
  sig : Signature
  fetchAttempted : Bool
  streamOpened : Bool
  streamClosed : Bool
  error : Option PyError
deriving Repr, DecidableEq

/-- `SignatureCallbackView.update_signer` of `views.py`: look the signer
up by primary key (`DoesNotExist` becomes `NotFoundError`), set `status`,
`status_datetime` (the Python `status_datetime or now()`) and
`status_details` (default message is the empty string), and save. -/
def update_signer (db : DB) (nowT : Nat) (signer_id : Nat) (status : String)
    (status_datetime : Option Nat) (message : Option String) :
    Except PyError DB :=
  match db.signers.find? (fun s => s.id == signer_id) with
  | none => .error .NotFoundError
  | some _ =>
    .ok ⟨db.signers.map (fun s =>
      if s.id == signer_id then
        { s with
          status := status
          status_datetime := status_datetime.getD nowT
          status_details := message.getD "" }
      else s)⟩

/-- `SignatureCallbackView.update_signature` of `views.py`: write and save
the new status, then, when the status is `completed` or the signature has
no stored document, fetch the first document from the backend and, in a
`try`/`finally` that always closes the stream, derive the filename
(existing name, else slugified title plus `.pdf`), delete the old
document without saving, and store the fetched bytes. -/
def update_signature (sig0 : Signature) (status : String)
    (status_datetime : Option Nat)
    (fetch : Except Unit (List (List Nat))) (f : Faults) : Outcome :=
  -- the status write leaves `document` and `document_title` unchanged, so
  -- the later reads of those fields are reads of `sig0`
  let sig1 : Signature := { sig0 with status := status }
  if status == "completed" || sig0.document.name == "" then
    match fetch with
    | .error _ => ⟨sig1, true, false, false, some .UpstreamFetchError⟩
    | .ok [] => ⟨sig1, true, false, false, some .StopIteration⟩
    | .ok (docBytes :: _) =>
      if f.filename_fails then
        ⟨sig1, true, true, true, some .FilenameError⟩
      else
        let filename := sig0.document.name
        let filename := if filename == "" then
          slugify sig0.document_title ++ ".pdf" else filename
        if f.delete_fails then
          ⟨sig1, true, true, true, some .DeleteError⟩
        else
          let sig2 : Signature := { sig1 with document := ⟨"", []⟩ }
          if f.store_fails then
            ⟨sig2, true, true, true, some .StorageError⟩
          else
            ⟨{ sig2 with document := ⟨filename, docBytes⟩ },
              true, true, true, none⟩
  else
    ⟨sig1, false, false, false, none⟩

/-- Modelled from the spec: the status-membership validation of the
callback handler lives in the library base class
`django_docusign.SignatureCallbackView`, which is part of this repository
but not under the sources given; per the contract of
`apply_signer_status`, a status outside the enumeration fails with
`InvalidStatusError` before any write, otherwise the demo's
`update_signer` runs. -/
def apply_signer_status (db : DB) (nowT : Nat) (signer_id : Nat)
    (status : String) (status_datetime : Option Nat)
    (message : Option String) : Except PyError DB :=
  if validStatus status then
    update_signer db nowT signer_id status status_datetime message
  else
    .error .InvalidStatusError

/-- Modelled from the spec: same membership validation in front of the
demo's `update_signature`; a rejected status leaves the signature
untouched and triggers no fetch. -/
def apply_signature_status (sig : Signature) (status : String)
    (status_datetime : Option Nat)
    (fetch : Except Unit (List (List Nat))) (f : Faults) : Outcome :=
  if validStatus status then
    update_signature sig status status_datetime fetch f
  else
    ⟨sig, false, false, false, some .InvalidStatusError⟩

/-! Helper lemmas shared by the claim theorems. -/

/-- Mapping an id-preserving function over the signer table commutes with
lookup by id. -/
theorem find?_map_of_id_preserved (l : List Signer) (p : Nat)
    (g : Signer → Signer) (hg : ∀ t, (g t).id = t.id) :
    (l.map g).find? (fun t => t.id == p)
      = (l.find? (fun t => t.id == p)).map g := by
  induction l with
  | nil => rfl
  | cons a l ih =>
    simp only [List.map_cons, List.find?_cons, hg a]
    cases a.id == p <;> simp [ih]

/-- Appending the `.pdf` extension never yields the empty string. -/
theorem append_pdf_ne_empty (s : String) : (s ++ ".pdf" == "") = false := by
  rw [beq_eq_false_iff_ne]
  intro h
  have h2 : (s ++ ".pdf").data = ("" : String).data := congrArg String.data h
  have h3 : (s ++ ".pdf").data = s.data ++ (".pdf" : String).data := rfl
  rw [h3] at h2
  simp at h2

/-! Theorems settling the claims. -/

/-- Claim C1: `update_signature` attempts the backend document fetch
exactly when the new status equals `completed` or the signature has no
stored document; in particular a signature whose document is present gets
no fetch from status `sent`. -/
theorem c1_fetch_iff_completed_or_no_document (sig : Signature)
    (status : String) (dt : Option Nat)
    (fetch : Except Unit (List (List Nat))) (f : Faults) :
    (update_signature sig status dt fetch f).fetchAttempted
      = (status == "completed" || sig.document.name == "") := by
  obtain ⟨ff, df, sf⟩ := f
  rcases fetch with e | (_ | ⟨d, l⟩) <;>
    cases hb : (status == "completed" || sig.document.name == "") <;>
      cases ff <;> cases df <;> cases sf <;>
        simp [update_signature, hb]

/-- Claim C5: in `update_signature` the fetched document stream is closed
exactly when it was opened — the `try`/`finally` closes it on every exit
path of the store sequence, faults included. -/
theorem c5_stream_closed_iff_opened (sig : Signature) (status : String)
    (dt : Option Nat) (fetch : Except Unit (List (List Nat))) (f : Faults) :
    (update_signature sig status dt fetch f).streamClosed
      = (update_signature sig status dt fetch f).streamOpened := by
  obtain ⟨ff, df, sf⟩ := f
  rcases fetch with e | (_ | ⟨d, l⟩) <;>
    cases hb : (status == "completed" || sig.document.name == "") <;>
      cases ff <;> cases df <;> cases sf <;>
        simp [update_signature, hb]

/-- Claim C6: the status write is persisted before the fetch attempt, so
whenever the fetch is triggered and the backend fails, the new status is
already stored and remains, the document is unchanged, and
`UpstreamFetchError` escapes. -/
theorem c6_status_persisted_before_fetch (sig : Signature) (status : String)
    (dt : Option Nat) (f : Faults)
    (h : (status == "completed" || sig.document.name == "") = true) :
    (update_signature sig status dt (.error ()) f).sig.status = status ∧
    (update_signature sig status dt (.error ()) f).sig.document
        = sig.document ∧
    (update_signature sig status dt (.error ()) f).error
        = some PyError.UpstreamFetchError := by
  simp [update_signature, h]

/-- Claim C6, witness: a failing fetch after the `completed` write on a
signature with a stored document. -/
theorem c6_status_persisted_before_fetch_witness :
    (("completed" == "completed"
        || (⟨⟨"a.pdf", [3]⟩, "T", "sent", 1⟩ : Signature).document.name
            == "") = true) ∧
    ((update_signature ⟨⟨"a.pdf", [3]⟩, "T", "sent", 1⟩ "completed" none
          (.error ()) noFaults).sig.status = "completed" ∧
      (update_signature ⟨⟨"a.pdf", [3]⟩, "T", "sent", 1⟩ "completed" none
          (.error ()) noFaults).sig.document
        = (⟨⟨"a.pdf", [3]⟩, "T", "sent", 1⟩ : Signature).document ∧
      (update_signature ⟨⟨"a.pdf", [3]⟩, "T", "sent", 1⟩ "completed" none
          (.error ()) noFaults).error = some PyError.UpstreamFetchError) :=
  ⟨by decide,
    c6_status_persisted_before_fetch ⟨⟨"a.pdf", [3]⟩, "T", "sent", 1⟩
      "completed" none noFaults (by decide)⟩

/-- Claim C9, amended part: `apply_signature_status` never changes
`status_datetime` — the field has `auto_now_add` and the handler ignores
its `status_datetime` parameter. -/
theorem c9_amended_sig_datetime_unchanged (sig : Signature) (status : String)
    (dt : Option Nat) (fetch : Except Unit (List (List Nat))) (f : Faults) :
    (apply_signature_status sig status dt fetch f).sig.status_datetime
      = sig.status_datetime := by
  obtain ⟨ff, df, sf⟩ := f
  rcases fetch with e | (_ | ⟨d, l⟩) <;>
    cases hv : validStatus status <;>
      cases hb : (status == "completed" || sig.document.name == "") <;>
        cases ff <;> cases df <;> cases sf <;>
          simp [apply_signature_status, update_signature, hv, hb]

/-- Claim C9, counterexample: a status write by `apply_signature_status`
with an explicit timestamp argument leaves `status_datetime` at its
creation value, refuting that it is set on every status write. -/
theorem c9_counterexample_datetime_stale :
    (apply_signature_status ⟨⟨"a.pdf", [0]⟩, "T", "draft", 5⟩ "sent"
        (some 99) (.ok [[1]]) noFaults).sig.status = "sent" ∧
    (apply_signature_status ⟨⟨"a.pdf", [0]⟩, "T", "draft", 5⟩ "sent"
        (some 99) (.ok [[1]]) noFaults).sig.status_datetime = 5 ∧
    (apply_signature_status ⟨⟨"a.pdf", [0]⟩, "T", "draft", 5⟩ "sent"
        (some 99) (.ok [[1]]) noFaults).sig.status_datetime ≠ 99 := by
  decide

/-- Claim C8, counterexample: from the terminal state `completed` the
handler accepts the backward transition to `sent` without error, refuting
that backward transitions are never accepted. -/
theorem c8_counterexample_backward_accepted :
    (apply_signature_status ⟨⟨"contract.pdf", [1]⟩, "Contract", "completed",
        10⟩ "sent" none (.ok [[2]]) noFaults).error = none ∧
    (apply_signature_status ⟨⟨"contract.pdf", [1]⟩, "Contract", "completed",
        10⟩ "sent" none (.ok [[2]]) noFaults).sig.status = "sent" := by
  decide

/-- The per-signer write performed by `update_signer` preserves the id. -/
theorem signerWrite_id (signer_id : Nat) (status : String) (nowT : Nat)
    (dt : Option Nat) (msg : Option String) (t : Signer) :
    (if t.id == signer_id then
       { t with status := status, status_datetime := dt.getD nowT,
                status_details := msg.getD "" }
     else t).id = t.id := by
  split <;> rfl

/-- Claim C2: for a resolvable signer and a valid status,
`apply_signer_status` persists exactly the given status, the given
timestamp (defaulting to now when omitted) and the given message
(defaulting to the empty string when omitted), leaving the signer's other
fields and all other signers untouched. -/
theorem c2_signer_update_exact (db : DB) (nowT signer_id : Nat)
    (status : String) (dt : Option Nat) (msg : Option String) (s : Signer)
    (hv : validStatus status = true)
    (hf : db.signers.find? (fun t => t.id == signer_id) = some s) :
    ∃ db2, apply_signer_status db nowT signer_id status dt msg = .ok db2 ∧
      db2.signers.find? (fun t => t.id == signer_id) = some
        { s with status := status, status_datetime := dt.getD nowT,
                 status_details := msg.getD "" } ∧
      ∀ t ∈ db.signers, t.id ≠ signer_id → t ∈ db2.signers := by
  have hs : (s.id == signer_id) = true := by
    have h2 := List.find?_some hf
    simpa using h2
  refine ⟨⟨db.signers.map (fun t =>
      if t.id == signer_id then
        { t with status := status, status_datetime := dt.getD nowT,
                 status_details := msg.getD "" }
      else t)⟩, ?_, ?_, ?_⟩
  · simp [apply_signer_status, hv, update_signer, hf]
  · rw [show (⟨db.signers.map (fun t =>
        if t.id == signer_id then
          { t with status := status, status_datetime := dt.getD nowT,
                   status_details := msg.getD "" }
        else t)⟩ : DB).signers = db.signers.map (fun t =>
        if t.id == signer_id then
          { t with status := status, status_datetime := dt.getD nowT,
                   status_details := msg.getD "" }
        else t) from rfl]
    rw [find?_map_of_id_preserved _ _ _
      (signerWrite_id signer_id status nowT dt msg), hf]
    have hseq : s.id = signer_id := by simpa using hs
    simp [hseq]
  · intro t ht hne
    have hne2 : (t.id == signer_id) = false := by
      simp [hne]
    simp only [List.mem_map]
    exact ⟨t, ht, by simp [hne2]⟩

/-- Claim C2, witness at a concrete database: the scenario of a signer
declining with an explicit timestamp and message. -/
theorem c2_signer_update_exact_witness :
    validStatus "declined" = true ∧
    (DB.mk [⟨2, "Ann B", "ann@example.com", 2, "sent", 3, ""⟩]).signers.find?
        (fun t => t.id == 2)
      = some ⟨2, "Ann B", "ann@example.com", 2, "sent", 3, ""⟩ ∧
    (∃ db2, apply_signer_status
          (DB.mk [⟨2, "Ann B", "ann@example.com", 2, "sent", 3, ""⟩]) 100 2
          "declined" (some 42) (some "recipient refused") = .ok db2 ∧
      db2.signers.find? (fun t => t.id == 2) = some
        { (⟨2, "Ann B", "ann@example.com", 2, "sent", 3, ""⟩ : Signer) with
          status := "declined", status_datetime := (some 42).getD 100,
          status_details := (some "recipient refused").getD "" } ∧
      ∀ t ∈ (DB.mk [⟨2, "Ann B", "ann@example.com", 2, "sent", 3, ""⟩]).signers,
        t.id ≠ 2 → t ∈ db2.signers) :=
  ⟨by decide, by decide,
    c2_signer_update_exact
      (DB.mk [⟨2, "Ann B", "ann@example.com", 2, "sent", 3, ""⟩]) 100 2
      "declined" (some 42) (some "recipient refused")
      ⟨2, "Ann B", "ann@example.com", 2, "sent", 3, ""⟩
      (by decide) (by decide)⟩

/-- Claim C3: a status outside the enumeration is rejected with
`InvalidStatusError` by both entry points; nothing is persisted and no
fetch is attempted. -/
theorem c3_invalid_status_rejected (db : DB) (nowT signer_id : Nat)
    (status : String) (dt : Option Nat) (msg : Option String)
    (sig : Signature) (fetch : Except Unit (List (List Nat))) (f : Faults)
    (h : validStatus status = false) :
    apply_signer_status db nowT signer_id status dt msg
        = .error PyError.InvalidStatusError ∧
    (apply_signature_status sig status dt fetch f).error
        = some PyError.InvalidStatusError ∧
    (apply_signature_status sig status dt fetch f).sig = sig ∧
    (apply_signature_status sig status dt fetch f).fetchAttempted = false := by
  simp [apply_signer_status, apply_signature_status, h]

/-- Claim C3, witness at the concrete unknown status `approved`. -/
theorem c3_invalid_status_rejected_witness :
    validStatus "approved" = false ∧
    (apply_signer_status (DB.mk []) 0 1 "approved" none none
        = .error PyError.InvalidStatusError ∧
      (apply_signature_status ⟨⟨"", []⟩, "t", "draft", 0⟩ "approved" none
          (.ok []) noFaults).error = some PyError.InvalidStatusError ∧
      (apply_signature_status ⟨⟨"", []⟩, "t", "draft", 0⟩ "approved" none
          (.ok []) noFaults).sig = ⟨⟨"", []⟩, "t", "draft", 0⟩ ∧
      (apply_signature_status ⟨⟨"", []⟩, "t", "draft", 0⟩ "approved" none
          (.ok []) noFaults).fetchAttempted = false) :=
  ⟨by decide,
    c3_invalid_status_rejected (DB.mk []) 0 1 "approved" none none
      ⟨⟨"", []⟩, "t", "draft", 0⟩ (.ok []) noFaults (by decide)⟩

/-- Claim C4: when the fetch is triggered and the store succeeds, the
stored filename is the existing document name when nonempty, else the
slugified title with the `.pdf` extension; a later `completed` call
re-stores under the same filename without re-slugifying. -/
theorem c4_filename_derivation_roundtrip (sig : Signature) (status : String)
    (dt dt2 : Option Nat) (b1 b2 : List Nat)
    (h : (status == "completed" || sig.document.name == "") = true) :
    (update_signature sig status dt (.ok [b1]) noFaults).sig.document.name
      = (if sig.document.name == "" then
           slugify sig.document_title ++ ".pdf" else sig.document.name) ∧
    (update_signature (update_signature sig status dt (.ok [b1]) noFaults).sig
        "completed" dt2 (.ok [b2]) noFaults).sig.document.name
      = (update_signature sig status dt (.ok [b1]) noFaults).sig.document.name
    := by
  have hc : (("completed" : String) == "completed") = true := by decide
  have h1 : (update_signature sig status dt (.ok [b1]) noFaults).sig
      = { sig with status := status,
                   document := ⟨if sig.document.name == "" then
                       slugify sig.document_title ++ ".pdf"
                     else sig.document.name, b1⟩ } := by
    simp [update_signature, h, noFaults]
  refine ⟨by rw [h1], ?_⟩
  rw [h1]
  cases hn : sig.document.name == "" with
  | false => simp [update_signature, hc, hn, noFaults]
  | true => simp [update_signature, hc, hn, noFaults, append_pdf_ne_empty]

/-- Claim C4, witness: the scenario of an absent document with title
`Contract Q3`, stored as `contract-q3.pdf` and re-used on the second
`completed` call. -/
theorem c4_filename_derivation_roundtrip_witness :
    (("completed" == "completed"
        || (⟨⟨"", []⟩, "Contract Q3", "draft", 0⟩ : Signature).document.name
            == "") = true) ∧
    ((update_signature ⟨⟨"", []⟩, "Contract Q3", "draft", 0⟩ "completed" none
        (.ok [[1]]) noFaults).sig.document.name
      = (if (⟨⟨"", []⟩, "Contract Q3", "draft", 0⟩ : Signature).document.name
            == "" then
           slugify (⟨⟨"", []⟩, "Contract Q3", "draft", 0⟩ :
              Signature).document_title ++ ".pdf"
         else (⟨⟨"", []⟩, "Contract Q3", "draft", 0⟩ :
              Signature).document.name) ∧
      (update_signature
          (update_signature ⟨⟨"", []⟩, "Contract Q3", "draft", 0⟩ "completed"
            none (.ok [[1]]) noFaults).sig "completed" none (.ok [[2]])
          noFaults).sig.document.name
        = (update_signature ⟨⟨"", []⟩, "Contract Q3", "draft", 0⟩ "completed"
            none (.ok [[1]]) noFaults).sig.document.name) :=
  ⟨by decide,
    c4_filename_derivation_roundtrip ⟨⟨"", []⟩, "Contract Q3", "draft", 0⟩
      "completed" none none [1] [2] (by decide)⟩

/-- Claim C7: an unresolvable signer id fails with `NotFoundError` and no
database state is produced. -/
theorem c7_unknown_signer_not_found (db : DB) (nowT signer_id : Nat)
    (status : String) (dt : Option Nat) (msg : Option String)
    (hv : validStatus status = true)
    (hf : db.signers.find? (fun t => t.id == signer_id) = none) :
    apply_signer_status db nowT signer_id status dt msg
        = .error PyError.NotFoundError ∧
    ∀ db2, apply_signer_status db nowT signer_id status dt msg ≠ .ok db2 := by
  have h1 : apply_signer_status db nowT signer_id status dt msg
      = .error PyError.NotFoundError := by
    simp [apply_signer_status, hv, update_signer, hf]
  refine ⟨h1, fun db2 hc => ?_⟩
  rw [h1] at hc
  cases hc

/-- Claim C7, witness at an empty database. -/
theorem c7_unknown_signer_not_found_witness :
    validStatus "sent" = true ∧
    (DB.mk []).signers.find? (fun t => t.id == 7) = none ∧
    (apply_signer_status (DB.mk []) 0 7 "sent" none none
        = .error PyError.NotFoundError ∧
      ∀ db2, apply_signer_status (DB.mk []) 0 7 "sent" none none
        ≠ .ok db2) :=
  ⟨by decide, by decide,
    c7_unknown_signer_not_found (DB.mk []) 0 7 "sent" none none
      (by decide) (by decide)⟩

/-- Claim C8, amended: the handler enforces no transition ordering — for
every current state and every status in the enumeration, the transition
is accepted and the new status written, for signatures and signers alike.
-/
theorem c8_amended_no_transition_guard (sig : Signature) (status : String)
    (dt : Option Nat) (fetch : Except Unit (List (List Nat))) (f : Faults)
    (db : DB) (nowT signer_id : Nat) (msg : Option String) (s : Signer)
    (hv : validStatus status = true)
    (hf : db.signers.find? (fun t => t.id == signer_id) = some s) :
    (apply_signature_status sig status dt fetch f).sig.status = status ∧
    ∃ db2, apply_signer_status db nowT signer_id status dt msg = .ok db2 ∧
      ∃ s2, db2.signers.find? (fun t => t.id == signer_id) = some s2 ∧
        s2.status = status := by
  have hs : (s.id == signer_id) = true := by
    have h2 := List.find?_some hf
    simpa using h2
  constructor
  · obtain ⟨ff, df, sf⟩ := f
    rcases fetch with e | (_ | ⟨d, l⟩) <;>
      cases hb : (status == "completed" || sig.document.name == "") <;>
        cases ff <;> cases df <;> cases sf <;>
          simp [apply_signature_status, update_signature, hv, hb]
  · refine ⟨⟨db.signers.map (fun t =>
        if t.id == signer_id then
          { t with status := status, status_datetime := dt.getD nowT,
                   status_details := msg.getD "" }
        else t)⟩, ?_, ?_⟩
    · simp [apply_signer_status, hv, update_signer, hf]
    · refine ⟨{ s with status := status, status_datetime := dt.getD nowT,
                       status_details := msg.getD "" }, ?_, rfl⟩
      rw [show (⟨db.signers.map (fun t =>
          if t.id == signer_id then
            { t with status := status, status_datetime := dt.getD nowT,
                     status_details := msg.getD "" }
          else t)⟩ : DB).signers = db.signers.map (fun t =>
          if t.id == signer_id then
            { t with status := status, status_datetime := dt.getD nowT,
                     status_details := msg.getD "" }
          else t) from rfl]
      rw [find?_map_of_id_preserved _ _ _
        (signerWrite_id signer_id status nowT dt msg), hf]
      have hseq : s.id = signer_id := by simpa using hs
      simp [hseq]

/-- Claim C8 amended, witness: the backward transition `completed → sent`
is accepted for a concrete signature and a concrete signer. -/
theorem c8_amended_no_transition_guard_witness :
    validStatus "sent" = true ∧
    (DB.mk [⟨1, "Bob C", "bob@example.com", 1, "completed", 4, ""⟩]).signers.find?
        (fun t => t.id == 1)
      = some ⟨1, "Bob C", "bob@example.com", 1, "completed", 4, ""⟩ ∧
    ((apply_signature_status ⟨⟨"contract.pdf", [1]⟩, "Contract", "completed",
          10⟩ "sent" none (.ok [[2]]) noFaults).sig.status = "sent" ∧
      ∃ db2, apply_signer_status
          (DB.mk [⟨1, "Bob C", "bob@example.com", 1, "completed", 4, ""⟩]) 0 1
          "sent" none none = .ok db2 ∧
        ∃ s2, db2.signers.find? (fun t => t.id == 1) = some s2 ∧
          s2.status = "sent") :=
  ⟨by decide, by decide,
    c8_amended_no_transition_guard
      ⟨⟨"contract.pdf", [1]⟩, "Contract", "completed", 10⟩ "sent" none
      (.ok [[2]]) noFaults
      (DB.mk [⟨1, "Bob C", "bob@example.com", 1, "completed", 4, ""⟩]) 0 1
      none ⟨1, "Bob C", "bob@example.com", 1, "completed", 4, ""⟩
      (by decide) (by decide)⟩

/-- Claim C10: with the fetch triggered and an empty document sequence,
`update_signature` escapes with the raw `StopIteration` (not one of the
taxonomy errors), after the new status is persisted and with the stored
document unchanged. -/
theorem c10_empty_document_sequence (sig : Signature) (status : String)
    (dt : Option Nat) (f : Faults)
    (h : (status == "completed" || sig.document.name == "") = true) :
    (update_signature sig status dt (.ok []) f).error
        = some PyError.StopIteration ∧
    (update_signature sig status dt (.ok []) f).sig.status = status ∧
    (update_signature sig status dt (.ok []) f).sig.document
        = sig.document ∧
    (update_signature sig status dt (.ok []) f).error
        ≠ some PyError.NotFoundError ∧
    (update_signature sig status dt (.ok []) f).error
        ≠ some PyError.InvalidStatusError ∧
    (update_signature sig status dt (.ok []) f).error
        ≠ some PyError.UpstreamFetchError := by
  simp [update_signature, h]

/-- Claim C10, witness: a template-originated signature with no stored
document, status `sent`, and an empty backend sequence. -/
theorem c10_empty_document_sequence_witness :
    (("sent" == "completed"
        || (⟨⟨"", []⟩, "t", "draft", 0⟩ : Signature).document.name == "")
      = true) ∧
    ((update_signature ⟨⟨"", []⟩, "t", "draft", 0⟩ "sent" none (.ok [])
          noFaults).error = some PyError.StopIteration ∧
      (update_signature ⟨⟨"", []⟩, "t", "draft", 0⟩ "sent" none (.ok [])
          noFaults).sig.status = "sent" ∧
      (update_signature ⟨⟨"", []⟩, "t", "draft", 0⟩ "sent" none (.ok [])
          noFaults).sig.document
        = (⟨⟨"", []⟩, "t", "draft", 0⟩ : Signature).document ∧
      (update_signature ⟨⟨"", []⟩, "t", "draft", 0⟩ "sent" none (.ok [])
          noFaults).error ≠ some PyError.NotFoundError ∧
      (update_signature ⟨⟨"", []⟩, "t", "draft", 0⟩ "sent" none (.ok [])
          noFaults).error ≠ some PyError.InvalidStatusError ∧
      (update_signature ⟨⟨"", []⟩, "t", "draft", 0⟩ "sent" none (.ok [])
          noFaults).error ≠ some PyError.UpstreamFetchError) :=
  ⟨by decide,
    c10_empty_document_sequence ⟨⟨"", []⟩, "t", "draft", 0⟩ "sent" none
      noFaults (by decide)⟩

end DjangoDocusign
